import Mathlib

/-!
Verification of the ServiceNow MCP server core against its design
specification.

The development shallowly embeds the three core components named by the
claims:

1. the session / authentication manager of `src/servicenow-client.js`
   (`authenticate`, `ensureAuthenticated`, and the token state machine),
2. the resource URI resolver and identifier-based record resolvers of the
   resource-template server variant (`ReadResourceRequestSchema` handler,
   `getIncidentByIdentifier`, `getUserByIdentifier`,
   `getProcessDefinitionWithDetails`),
3. the tool dispatch router and the generic table tool handler of
   `src/index.js` and `src/tools/table-api.js`.

JavaScript strings are modelled as `String` or as `List Char` (the latter
where prefix/split reasoning over URIs is needed), JS numbers as `Int`
(timestamps) or `Nat`, absent (`undefined`/`null`) values as `Option`,
thrown exceptions as `Except String` results, and network interaction as
explicit response oracles passed to each embedded function, together with
a trace of the outbound calls the function performs.
-/

/-! ## Section 1: session / authentication manager (`src/servicenow-client.js`) -/

/-- Mutable token state of `ServiceNowClient`: `this.accessToken`,
`this.tokenExpiry` (ms timestamp), and the default `Authorization` header
of the underlying axios instance (`this.httpClient.defaults.headers.common`).
`none` models JS `null`/unset. -/
structure ClientState where
  accessToken : Option String
  tokenExpiry : Option Int
  authHeader : Option String
  deriving DecidableEq, Repr

/-- Body of a 2xx token-endpoint response (`response.data`): the fields
`authenticate()` inspects. -/
structure AuthData where
  access_token : Option String
  expires_in : Option Nat
  deriving DecidableEq, Repr

/-- Outcome of the axios POST to `/oauth_token.do` as seen by
`authenticate()`: a resolved 2xx response carrying a body, a rejection
carrying `error.response` (non-2xx status), a rejection carrying only
`error.request` (no response received), or any other local error. -/
inductive AuthResponse where
  | success (data : AuthData)
  | httpError (status : Nat) (error_description : Option String) (statusText : String)
  | noResponse
  | requestError (message : String)
  deriving DecidableEq, Repr

/-- Client state right after the constructor (lines 13-24): no token, no
expiry, no default Authorization header. -/
def initialState : ClientState :=
  { accessToken := none, tokenExpiry := none, authHeader := none }

/-- JS `v || d` for an optional number: `0` and absent are falsy. -/
def jsOrNat (v : Option Nat) (d : Nat) : Nat :=
  match v with
  | none => d
  | some n => if n = 0 then d else n

/-- JS `v || d` for an optional string: the empty string and absent are falsy. -/
def jsOrStr (v : Option String) (d : String) : String :=
  match v with
  | none => d
  | some s => if s = "" then d else s

/-- Embedding of `ServiceNowClient.authenticate()` (lines 27-72), given the
current `Date.now()` value and the token-endpoint outcome. Returns the new
client state and either `.ok true` (the JS `return true`) or `.error msg`
(the thrown `Error`). The inner `throw new Error('No access token received
from ServiceNow')` is caught by the same `catch` block and, having neither
`.response` nor `.request`, is rewrapped by the final `else` branch. -/
def authenticate (st : ClientState) (now : Int) (resp : AuthResponse) :
    ClientState × Except String Bool :=
  match resp with
  | .success data =>
      match data.access_token with
      | some tok =>
          if tok = "" then
            (st, .error "Authentication failed: No access token received from ServiceNow")
          else
            let expiresIn : Nat := jsOrNat data.expires_in 3600
            ({ accessToken := some tok,
               tokenExpiry := some (now + (expiresIn : Int) * 1000),
               authHeader := some ("Bearer " ++ tok) },
             .ok true)
      | none =>
          (st, .error "Authentication failed: No access token received from ServiceNow")
  | .httpError status desc statusText =>
      (st, .error ("Authentication failed: " ++ toString status ++ " - " ++ jsOrStr desc statusText))
  | .noResponse =>
      (st, .error "Authentication failed: No response from ServiceNow server")
  | .requestError msg =>
      (st, .error ("Authentication failed: " ++ msg))

/-- The refresh condition of `ensureAuthenticated()` (line 76):
`!this.accessToken || !this.tokenExpiry || Date.now() > (this.tokenExpiry - 300000)`.
JS falsiness of a string is emptiness, of a number is being zero. -/
def needsAuth (st : ClientState) (now : Int) : Bool :=
  match st.accessToken, st.tokenExpiry with
  | some tok, some e => decide (tok = "") || decide (e = 0) || decide (now > e - 300000)
  | _, _ => true

/-- Embedding of `ServiceNowClient.ensureAuthenticated()` (lines 74-79).
Returns the new state, whether `authenticate()` was invoked (a network
authentication call), and the propagated error if that call threw. -/
def ensureAuthenticated (st : ClientState) (now : Int) (resp : AuthResponse) :
    ClientState × Bool × Except String Unit :=
  if needsAuth st now then
    let r := authenticate st now resp
    (r.1, true, r.2.map fun _ => ())
  else
    (st, false, .ok ())

/-- One client operation touching the session: `authenticate` itself, or any
of the request-issuing operations, all of which reach the session state only
through the `ensureAuthenticated()` call at the top of `makeRequest`
(line 82); the HTTP call that follows never assigns the token fields. Each
operation carries the `Date.now()` value during it and the token-endpoint
outcome an authentication attempt would observe. -/
inductive ClientOp where
  | auth (now : Int) (resp : AuthResponse)
  | makeRequestOp (now : Int) (resp : AuthResponse)
  | getRecordOp (now : Int) (resp : AuthResponse)
  | queryTableOp (now : Int) (resp : AuthResponse)
  | createRecordOp (now : Int) (resp : AuthResponse)
  | updateRecordOp (now : Int) (resp : AuthResponse)
  | deleteRecordOp (now : Int) (resp : AuthResponse)
  deriving DecidableEq, Repr

/-- The `Date.now()` instant of an operation. -/
def ClientOp.now : ClientOp → Int
  | .auth n _ => n
  | .makeRequestOp n _ => n
  | .getRecordOp n _ => n
  | .queryTableOp n _ => n
  | .createRecordOp n _ => n
  | .updateRecordOp n _ => n
  | .deleteRecordOp n _ => n

/-- The token-endpoint outcome an operation would observe if it authenticated. -/
def ClientOp.resp : ClientOp → AuthResponse
  | .auth _ r => r
  | .makeRequestOp _ r => r
  | .getRecordOp _ r => r
  | .queryTableOp _ r => r
  | .createRecordOp _ r => r
  | .updateRecordOp _ r => r
  | .deleteRecordOp _ r => r

/-- Session-state effect of each client operation. `getRecord`, `queryTable`,
`createRecord`, `updateRecord` and `deleteRecord` (lines 109-147) are pure
parameter-shaping wrappers over `makeRequest`, whose only session-state
effect is its initial `ensureAuthenticated()`. -/
def applyOp (st : ClientState) : ClientOp → ClientState
  | .auth n r => (authenticate st n r).1
  | .makeRequestOp n r => (ensureAuthenticated st n r).1
  | .getRecordOp n r => (ensureAuthenticated st n r).1
  | .queryTableOp n r => (ensureAuthenticated st n r).1
  | .createRecordOp n r => (ensureAuthenticated st n r).1
  | .updateRecordOp n r => (ensureAuthenticated st n r).1
  | .deleteRecordOp n r => (ensureAuthenticated st n r).1

/-- States of the client reachable from construction by any sequence of
operations, at nonnegative `Date.now()` instants. -/
inductive Reachable : ClientState → Prop where
  | init : Reachable initialState
  | step (st : ClientState) (op : ClientOp) (h : Reachable st) (hnow : 0 ≤ op.now) :
      Reachable (applyOp st op)

/-- Session invariant: the token and its expiry are both absent, or both
present with a nonempty token and a positive expiry instant. -/
def sessionInv (st : ClientState) : Prop :=
  (st.accessToken = none ∧ st.tokenExpiry = none) ∨
  (∃ tok e, st.accessToken = some tok ∧ tok ≠ "" ∧ st.tokenExpiry = some e ∧ 0 < e)

/-- Failing token-endpoint outcomes as the claims enumerate them: a non-2xx
response, no response received, any other local request failure, or a 2xx
response lacking a nonempty access token. -/
def authRespFails : AuthResponse → Prop
  | .success data => data.access_token = none ∨ data.access_token = some ""
  | .httpError _ _ _ => True
  | .noResponse => True
  | .requestError _ => True

/-! ## Section 2: resource resolvers (resource-template server variant) -/

/-- A table record as the resolvers consume it: the fields they project
(`sys_id`, `name`, `status`, `active`) plus the remaining payload, opaque
to this layer. -/
structure SNRecord where
  sys_id : String := ""
  name : String := ""
  status : String := ""
  active : String := ""
  payload : String := ""
  deriving DecidableEq, Repr

/-- Response oracle for the `ServiceNowClient` calls the resolvers make:
`getRecordResp table sysId` is the outcome of `client.getRecord`, and
`queryResp table query fields limit offset orderBy` the outcome of
`client.queryTable` (the list `response.result`). `.error` models a thrown
exception. -/
structure Backend where
  getRecordResp : String → String → Except String SNRecord
  queryResp : String → String → String → Nat → Nat → Option String → Except String (List SNRecord)

/-- One outbound client call performed by a resolver. -/
inductive SNCall where
  | getRec (table sysId : String)
  | query (table q fields : String) (limit offset : Nat) (orderBy : Option String)
  deriving DecidableEq, Repr

/-- Character class of the regex `[a-f0-9]` under the `i` flag. -/
def isHexCharCI (c : Char) : Bool :=
  ('a' ≤ c && c ≤ 'f') || ('A' ≤ c && c ≤ 'F') || ('0' ≤ c && c ≤ '9')

/-- The test `/^[a-f0-9]{32}$/i.test(s)`: exactly 32 characters, each a hex
digit of either case. -/
def regexHex32CI (s : String) : Bool :=
  s.length == 32 && s.data.all isHexCharCI

/-- The sys_id check of the identifier resolvers:
`identifier.length === 32 && /^[a-f0-9]{32}$/i.test(identifier)`. -/
def looksLikeSysId (s : String) : Bool :=
  s.length == 32 && regexHex32CI s

/-- Result shape of the incident and user identifier resolvers. -/
structure LookupResult where
  rtype : String
  identifier : String
  lookup_method : String
  record : SNRecord
  deriving DecidableEq, Repr

/-- Embedding of `ServiceNowMCPServer.getIncidentByIdentifier` (resource
server variant, lines 645-679): sys_id-shaped identifiers are fetched with
`getRecord('incident', identifier)`, anything else is queried by
`number=identifier` with limit 1, erroring when no record matches. Every
error is rewrapped by the outer catch. The second component is the list of
client calls performed. -/
def getIncidentByIdentifier (b : Backend) (identifier : String) :
    Except String LookupResult × List SNCall :=
  if looksLikeSysId identifier then
    match b.getRecordResp "incident" identifier with
    | .ok r =>
        (.ok { rtype := "incident", identifier := identifier,
               lookup_method := "sys_id", record := r },
         [.getRec "incident" identifier])
    | .error e =>
        (.error ("Failed to get incident \"" ++ identifier ++ "\": " ++ e),
         [.getRec "incident" identifier])
  else
    let q := "number=" ++ identifier
    match b.queryResp "incident" q "" 1 0 none with
    | .ok [] =>
        (.error ("Failed to get incident \"" ++ identifier ++ "\": No incident found with number \"" ++ identifier ++ "\""),
         [.query "incident" q "" 1 0 none])
    | .ok (r :: _) =>
        (.ok { rtype := "incident", identifier := identifier,
               lookup_method := "number", record := r },
         [.query "incident" q "" 1 0 none])
    | .error e =>
        (.error ("Failed to get incident \"" ++ identifier ++ "\": " ++ e),
         [.query "incident" q "" 1 0 none])

/-- Embedding of `ServiceNowMCPServer.getUserByIdentifier` (lines 681-715):
sys_id-shaped identifiers are fetched with `getRecord('sys_user', id)`, all
others are queried by `user_name=id^ORemail=id` with limit 1, erroring when
no record matches. -/
def getUserByIdentifier (b : Backend) (identifier : String) :
    Except String LookupResult × List SNCall :=
  if looksLikeSysId identifier then
    match b.getRecordResp "sys_user" identifier with
    | .ok r =>
        (.ok { rtype := "user", identifier := identifier,
               lookup_method := "sys_id", record := r },
         [.getRec "sys_user" identifier])
    | .error e =>
        (.error ("Failed to get user \"" ++ identifier ++ "\": " ++ e),
         [.getRec "sys_user" identifier])
  else
    let q := "user_name=" ++ identifier ++ "^ORemail=" ++ identifier
    match b.queryResp "sys_user" q "" 1 0 none with
    | .ok [] =>
        (.error ("Failed to get user \"" ++ identifier ++ "\": No user found with username or email \"" ++ identifier ++ "\""),
         [.query "sys_user" q "" 1 0 none])
    | .ok (r :: _) =>
        (.ok { rtype := "user", identifier := identifier,
               lookup_method := "username_or_email", record := r },
         [.query "sys_user" q "" 1 0 none])
    | .error e =>
        (.error ("Failed to get user \"" ++ identifier ++ "\": " ++ e),
         [.query "sys_user" q "" 1 0 none])

/-- An activity record tagged with its owning lane
(`{...activity, lane_name, lane_sys_id}`). -/
structure TaggedActivity where
  activity : SNRecord
  lane_name : String
  lane_sys_id : String
  deriving DecidableEq, Repr

/-- The `summary` object of a resolved process definition. -/
structure PDSummary where
  total_lanes : Nat
  total_activities : Nat
  status : String
  active : Bool
  deriving DecidableEq, Repr

/-- Result shape of `getProcessDefinitionWithDetails`. -/
structure PDResult where
  rtype : String
  sys_id : String
  process_definition : SNRecord
  lanes : List SNRecord
  activities : List TaggedActivity
  summary : PDSummary
  deriving DecidableEq, Repr

/-- Lane lookup with the two-table fallback (lines 731-744): try
`sys_pd_lane_definition`, then `sys_pd_lane`; when both throw, default to no
lanes and log the second failure. Returns (lanes, calls, log lines). -/
def fetchLanes (b : Backend) (sysId : String) :
    List SNRecord × List SNCall × List String :=
  let lanesQuery := "process_definition=" ++ sysId ++ "^active=true"
  let call1 := SNCall.query "sys_pd_lane_definition" lanesQuery "" 100 0 (some "order")
  let call2 := SNCall.query "sys_pd_lane" lanesQuery "" 100 0 (some "order")
  match b.queryResp "sys_pd_lane_definition" lanesQuery "" 100 0 (some "order") with
  | .ok rs => (rs, [call1], [])
  | .error _ =>
      match b.queryResp "sys_pd_lane" lanesQuery "" 100 0 (some "order") with
      | .ok rs => (rs, [call1, call2], [])
      | .error e2 => ([], [call1, call2], ["Could not fetch lanes: " ++ e2])

/-- Activity lookup for one lane with the two-table fallback (lines 748-771):
try `sys_pd_activity_definition`, then `sys_pd_activity`; when both throw,
contribute no activities and log the second failure. -/
def fetchLaneActivities (b : Backend) (lane : SNRecord) :
    List TaggedActivity × List SNCall × List String :=
  let q := "lane=" ++ lane.sys_id ++ "^active=true"
  let call1 := SNCall.query "sys_pd_activity_definition" q "" 100 0 (some "order")
  let call2 := SNCall.query "sys_pd_activity" q "" 100 0 (some "order")
  match b.queryResp "sys_pd_activity_definition" q "" 100 0 (some "order") with
  | .ok rs =>
      (rs.map fun a => { activity := a, lane_name := lane.name, lane_sys_id := lane.sys_id },
       [call1], [])
  | .error _ =>
      match b.queryResp "sys_pd_activity" q "" 100 0 (some "order") with
      | .ok rs =>
          (rs.map fun a => { activity := a, lane_name := lane.name, lane_sys_id := lane.sys_id },
           [call1, call2], [])
      | .error e2 =>
          ([], [call1, call2],
           ["Could not fetch activities for lane " ++ lane.sys_id ++ ": " ++ e2])

/-- Embedding of `ServiceNowMCPServer.getProcessDefinitionWithDetails`
(lines 717-790). The `if (lanes.length > 0)` guard before the lane loop is
behaviorally the loop itself, which does nothing on an empty list. Returns
the resolved result (or rewrapped error), the client calls performed, and
the `console.error` log lines. -/
def getProcessDefinitionWithDetails (b : Backend) (sysId : String) :
    Except String PDResult × List SNCall × List String :=
  let pdCall := SNCall.getRec "sys_pd_process_definition" sysId
  match b.getRecordResp "sys_pd_process_definition" sysId with
  | .error e =>
      (.error ("Failed to get process definition \"" ++ sysId ++ "\": " ++ e), [pdCall], [])
  | .ok processDefinition =>
      let lanesOut := fetchLanes b sysId
      let lanes := lanesOut.1
      let actsOut := lanes.foldl
        (fun acc lane =>
          let one := fetchLaneActivities b lane
          (acc.1 ++ one.1, acc.2.1 ++ one.2.1, acc.2.2 ++ one.2.2))
        (([] : List TaggedActivity), ([] : List SNCall), ([] : List String))
      let activities := actsOut.1
      (.ok { rtype := "process_definition",
             sys_id := sysId,
             process_definition := processDefinition,
             lanes := lanes,
             activities := activities,
             summary := { total_lanes := lanes.length,
                          total_activities := activities.length,
                          status := processDefinition.status,
                          active := processDefinition.active == "true" } },
       pdCall :: (lanesOut.2.1 ++ actsOut.2.1),
       lanesOut.2.2 ++ actsOut.2.2)

/-! ## Section 3: resource URI dispatch (`ReadResourceRequestSchema` handler) -/

/-- Outcome of the `ReadResourceRequestSchema` handler's URI dispatch: which
branch the URI reaches with which extracted parameters, or the
`InvalidRequest` rejection with its message. URIs are modelled as the
character sequences JS strings are. -/
inductive ReadOutcome where
  | examples
  | tableSchema (table : List Char)
  | tableData (table : List Char)
  | record (table sysId : List Char)
  | incident (identifier : List Char)
  | user (identifier : List Char)
  | processDef (sysId : List Char)
  | invalid (msg : List Char)
  deriving DecidableEq, Repr

/-- JS `String.prototype.split` with a one-character separator: `""` splits
to `[""]`, separators at the ends produce empty segments. -/
def splitOnChar (sep : Char) : List Char → List (List Char)
  | [] => [[]]
  | c :: cs =>
      let r := splitOnChar sep cs
      if c = sep then [] :: r
      else
        match r with
        | [] => [[c]]
        | h :: t => (c :: h) :: t

/-- The literal URI of the examples resource. -/
def exUri : List Char := "servicenow://examples".data

/-- Prefix of table-schema resource URIs. -/
def schemaPfx : List Char := "servicenow://table-schema/".data

/-- Prefix of table-data resource URIs. -/
def dataPfx : List Char := "servicenow://table-data/".data

/-- Prefix of record resource URIs. -/
def recPfx : List Char := "servicenow://record/".data

/-- Prefix of incident resource URIs. -/
def incPfx : List Char := "servicenow://incident/".data

/-- Prefix of user resource URIs. -/
def userPfx : List Char := "servicenow://user/".data

/-- Prefix of process-definition resource URIs. -/
def pdPfx : List Char := "servicenow://process-definition/".data

/-- Rejection message of the table-schema branch when the table name is empty. -/
def schemaReqMsg : List Char :=
  "Table name is required in URI. Use format: servicenow://table-schema/\x7btable_name\x7d".data

/-- Rejection message of the table-data branch when the table name is empty. -/
def dataReqMsg : List Char :=
  "Table name is required in URI. Use format: servicenow://table-data/\x7btable_name\x7d".data

/-- Rejection message of the record branch on a malformed path. -/
def recFormatMsg : List Char :=
  "URI format should be servicenow://record/\x7btable_name\x7d/\x7bsys_id\x7d".data

/-- Rejection message of the incident branch when the identifier is empty. -/
def incReqMsg : List Char :=
  "Incident number or sys_id is required in URI. Use format: servicenow://incident/\x7bnumber_or_sys_id\x7d".data

/-- Rejection message of the user branch when the identifier is empty. -/
def userReqMsg : List Char :=
  "Username or sys_id is required in URI. Use format: servicenow://user/\x7busername_or_sys_id\x7d".data

/-- Rejection message of the process-definition branch when the sys_id is empty. -/
def pdReqMsg : List Char :=
  "Process definition sys_id is required in URI. Use format: servicenow://process-definition/\x7bsys_id\x7d".data

/-- Tail of the final fallthrough rejection message, enumerating the
available resource templates. -/
def unknownTail : List Char :=
  ("\n\nAvailable resource templates:\n• servicenow://table-schema/\x7btable\x7d - Get table field definitions\n• servicenow://table-data/\x7btable\x7d - Get sample table data\n• servicenow://record/\x7btable\x7d/\x7bsys_id\x7d - Get specific record\n• servicenow://incident/\x7bnumber_or_sys_id\x7d - Get incident details\n• servicenow://user/\x7busername_or_sys_id\x7d - Get user profile\n• servicenow://process-definition/\x7bsys_id\x7d - Get process definition with details\n• servicenow://examples - Get example prompts and documentation").data

/-- The final fallthrough rejection message (lines 388-398). -/
def unknownMsg (uri : List Char) : List Char :=
  "Unknown resource: ".data ++ uri ++ unknownTail

/-- The six supported URI templates, as the specification writes them. -/
def sixTemplates : List (List Char) :=
  ["servicenow://table-schema/\x7btable\x7d".data,
   "servicenow://table-data/\x7btable\x7d".data,
   "servicenow://record/\x7btable\x7d/\x7bsys_id\x7d".data,
   "servicenow://incident/\x7bnumber_or_sys_id\x7d".data,
   "servicenow://user/\x7busername_or_sys_id\x7d".data,
   "servicenow://process-definition/\x7bsys_id\x7d".data]

/-- The property that a rejection message contains every one of the six
supported URI templates. -/
def enumeratesSixTemplates (msg : List Char) : Prop :=
  ∀ t ∈ sixTemplates, t <:+: msg

/-- Embedding of the URI dispatch of the `ReadResourceRequestSchema` handler
(lines 214-399): the branches are tested in source order; each prefix branch
strips its prefix (`uri.replace(prefix, '')`, which under the `startsWith`
guard drops the leading occurrence) and validates its trailing parameters;
the record branch splits on `/` and requires exactly two nonempty segments
(`pathParts.length !== 2 || !pathParts[0] || !pathParts[1]` rejects). -/
def readResource (uri : List Char) : ReadOutcome :=
  if uri = exUri then .examples
  else if schemaPfx.isPrefixOf uri then
    let tableName := uri.drop schemaPfx.length
    if tableName = [] then .invalid schemaReqMsg else .tableSchema tableName
  else if dataPfx.isPrefixOf uri then
    let tableName := uri.drop dataPfx.length
    if tableName = [] then .invalid dataReqMsg else .tableData tableName
  else if recPfx.isPrefixOf uri then
    match splitOnChar '/' (uri.drop recPfx.length) with
    | [t, s] => if t ≠ [] ∧ s ≠ [] then .record t s else .invalid recFormatMsg
    | _ => .invalid recFormatMsg
  else if incPfx.isPrefixOf uri then
    let identifier := uri.drop incPfx.length
    if identifier = [] then .invalid incReqMsg else .incident identifier
  else if userPfx.isPrefixOf uri then
    let identifier := uri.drop userPfx.length
    if identifier = [] then .invalid userReqMsg else .user identifier
  else if pdPfx.isPrefixOf uri then
    let sysId := uri.drop pdPfx.length
    if sysId = [] then .invalid pdReqMsg else .processDef sysId
  else .invalid (unknownMsg uri)

/-! ## Section 4: tool dispatch router (`src/index.js`) and the generic table
tool handler (`src/tools/table-api.js`) -/

/-- JS `s.includes(sub)`: substring containment. -/
def jsIncludes (s sub : String) : Bool := decide (sub.data <:+: s.data)

/-- JS `s.endsWith(suf)`. -/
def jsEndsWith (s suf : String) : Bool := List.isSuffixOf suf.data s.data

/-- JS `s.startsWith(p)`. -/
def jsStartsWithStr (s p : String) : Bool := List.isPrefixOf p.data s.data

/-- The seven handler groups the router dispatches to. -/
inductive HandlerGroup where
  | incident
  | scriptInclude
  | table
  | processDefinition
  | processLane
  | processActivity
  | attachment
  deriving DecidableEq, Repr

/-- The ordered routing table `this.toolRouter` (lines 113-145), each entry a
match predicate over the tool name paired with its handler group. -/
def toolRouter : List (HandlerGroup × (String → Bool)) :=
  [(.incident, fun n => jsIncludes n "_incident"),
   (.scriptInclude, fun n => jsIncludes n "script_include"),
   (.table, fun n => jsIncludes n "query_table" || jsIncludes n "_record"),
   (.processDefinition, fun n => jsIncludes n "process_definition"),
   (.processLane, fun n => jsIncludes n "process_lane"),
   (.processActivity, fun n => jsIncludes n "process_activity" || jsIncludes n "activity_definition"),
   (.attachment, fun n => jsIncludes n "_attachment")]

/-- The route lookup `this.toolRouter.find((r) => r.match(name))` (line 179):
first matching predicate wins. -/
def toolRoute (n : String) : Option HandlerGroup :=
  (toolRouter.find? fun r => r.2 n).map (fun r => r.1)

/-- Routing function written from the specification's own wording, with the
table predicate as substring containment of both triggers: a name containing
`_incident`, else one containing `script_include`, else one containing
`query_table` or containing `_record`, else `process_definition`, else
`process_lane`, else `process_activity` or `activity_definition`, else
`_attachment`; any other name matches no predicate. -/
def routeSpecContains (n : String) : Option HandlerGroup :=
  if jsIncludes n "_incident" then some .incident
  else if jsIncludes n "script_include" then some .scriptInclude
  else if jsIncludes n "query_table" || jsIncludes n "_record" then some .table
  else if jsIncludes n "process_definition" then some .processDefinition
  else if jsIncludes n "process_lane" then some .processLane
  else if jsIncludes n "process_activity" || jsIncludes n "activity_definition" then some .processActivity
  else if jsIncludes n "_attachment" then some .attachment
  else none

/-- The generic-table routing predicate exactly as the claim words it: a name
containing `query_table` or ENDING in `_record`. -/
def claimTablePred (n : String) : Bool :=
  jsIncludes n "query_table" || jsEndsWith n "_record"

/-- The protocol error codes the router raises. -/
inductive ErrCode where
  | methodNotFound
  | internalError
  deriving DecidableEq, Repr

/-- A thrown `McpError`. -/
structure McpErr where
  code : ErrCode
  message : String
  deriving DecidableEq, Repr

/-- A handler-level result object: its text content blocks and the optional
`isError` flag some handlers set on an internally caught failure. -/
structure ToolResult where
  content : List String
  isError : Bool := false
  deriving DecidableEq, Repr

/-- What an invoked handler does: return a string, return a result object,
or throw. -/
inductive JsOutcome where
  | retStr (s : String)
  | retObj (r : ToolResult)
  | throwErr (message : String)
  deriving DecidableEq, Repr

/-- The single text block the router wraps a handler result into: the string
itself when the result is a string, else the `JSON.stringify` rendering of
the result object (kept structured here). -/
inductive WireText where
  | plain (s : String)
  | json (r : ToolResult)
  deriving DecidableEq, Repr

/-- The protocol envelope of a successful tool call. -/
structure CallToolOk where
  content : List WireText
  deriving DecidableEq, Repr

/-- Embedding of the `CallToolRequestSchema` handler (lines 177-203): route
by first matching predicate, raise `MethodNotFound` when none matches,
invoke the matched handler, wrap its result, and rewrap anything it throws
as an `InternalError` tagged with the tool name. The second component lists
the handler groups actually invoked. -/
def callTool (oracle : HandlerGroup → String → JsOutcome) (name : String) :
    Except McpErr CallToolOk × List HandlerGroup :=
  match toolRoute name with
  | none =>
      (.error { code := .methodNotFound, message := "Unknown tool: " ++ name }, [])
  | some g =>
      match oracle g name with
      | .retStr s => (.ok { content := [.plain s] }, [g])
      | .retObj r => (.ok { content := [.json r] }, [g])
      | .throwErr m =>
          (.error { code := .internalError,
                    message := "Tool execution failed: " ++ name ++ ": " ++ m }, [g])

/-- A raw table record as the table tools consume it: field names mapped to
string values, in object-key order. -/
def JRecord : Type := List (String × String)

instance : DecidableEq JRecord := by
  unfold JRecord
  infer_instance

/-- JS property access `record[field]` over a record. -/
def jsLookup (r : JRecord) (k : String) : Option String :=
  (r.find? fun p => p.1 == k).map (fun p => p.2)

/-- The query parameters `ServiceNowClient.queryTable` assembles
(lines 119-132): `sysparm_limit` and `sysparm_offset` always, the other
three only when truthy. -/
structure SysParams where
  sysparm_limit : Int
  sysparm_offset : Int
  sysparm_query : Option String := none
  sysparm_fields : Option String := none
  sysparm_orderby : Option String := none
  deriving DecidableEq, Repr

/-- One HTTP call handed to `makeRequest`. -/
structure TransportCall where
  method : String
  path : String
  params : SysParams
  deriving DecidableEq, Repr

/-- JS truthiness of an optional string. -/
def jsTruthyOptStr : Option String → Bool
  | none => false
  | some s => s != ""

/-- Embedding of `ServiceNowClient.queryTable` parameter assembly
(lines 118-135): the transport call it dispatches. -/
def clientQueryTable (table : String) (query fields : Option String)
    (limit offset : Int) (orderBy : Option String) : TransportCall :=
  { method := "GET",
    path := "/api/now/table/" ++ table,
    params := { sysparm_limit := limit,
                sysparm_offset := offset,
                sysparm_query := if jsTruthyOptStr query then query else none,
                sysparm_fields := if jsTruthyOptStr fields then fields else none,
                sysparm_orderby := if jsTruthyOptStr orderBy then orderBy else none } }

/-- Arguments of the `servicenow_query_table` tool; absent properties are
`none`. -/
structure QueryArgs where
  table : String
  query : Option String := none
  fields : Option String := none
  limit : Option Int := none
  offset : Option Int := none
  order_by : Option String := none
  deriving DecidableEq, Repr

/-- The `minimum` constraint the `servicenow_query_table` input schema
declares for `limit` (table-api.js lines 21-26). -/
def queryTableLimitMinimum : Option Int := some 1

/-- The `maximum` constraint the `servicenow_query_table` input schema
declares for `limit`. -/
def queryTableLimitMaximum : Option Int := some 1000

/-- Per-record lines of `handleQueryTable`'s success text (lines 155-181):
the key fields shown first, then the remaining truthy non-`sys_` fields,
then the `sys_created_on` line (rendering JS `undefined` when absent). -/
def renderRecordLines (r : JRecord) : String :=
  let keyFields := ["number", "name", "title", "short_description", "display_value"]
  let keyStep := keyFields.foldl
    (fun (acc : String × List String) f =>
      match jsLookup r f with
      | some v => if v ≠ "" then (acc.1 ++ "   " ++ f ++ ": " ++ v ++ "\n", acc.2 ++ [f]) else acc
      | none => acc)
    ("", [])
  let shownFields := keyStep.2
  let rest := (r.map (fun p => p.1)).foldl
    (fun (acc : String) f =>
      if !(shownFields.contains f) && !(jsStartsWithStr f "sys_") && f != "sys_id" then
        match jsLookup r f with
        | some v => if v ≠ "" then acc ++ "   " ++ f ++ ": " ++ v ++ "\n" else acc
        | none => acc
      else acc)
    ""
  keyStep.1 ++ rest ++ "   sys_created_on: " ++ (jsLookup r "sys_created_on").getD "undefined" ++ "\n\n"

/-- Success text of `handleQueryTable` (lines 143-182). -/
def formatQueryResult (table : String) (limit : Int) (records : List JRecord) : String :=
  let count := records.length
  let header := "Found " ++ toString count ++ " record(s) in table \"" ++ table ++ "\""
  let header :=
    if limit != 0 && (count : Int) == limit then
      header ++ " (showing first " ++ toString limit ++ ")"
    else header
  let header := header ++ ":\n\n"
  if count = 0 then header ++ "No records found matching the criteria."
  else
    header ++ String.join (records.enum.map
      (fun p =>
        toString (p.1 + 1) ++ ". Record " ++ (jsLookup p.2 "sys_id").getD "undefined" ++ ":\n"
          ++ renderRecordLines p.2))

/-- Embedding of `handleQueryTable` (table-api.js lines 138-203): defaults
`limit` to 100 and `offset` to 0 (only when absent), dispatches the query to
the transport, formats the result, and catches any thrown error into an
`isError` result object instead of rethrowing. The second component is the
list of transport calls dispatched. -/
def handleQueryTable (backend : TransportCall → Except String (List JRecord))
    (args : QueryArgs) : ToolResult × List TransportCall :=
  let limit := args.limit.getD 100
  let offset := args.offset.getD 0
  let call := clientQueryTable args.table args.query args.fields limit offset args.order_by
  match backend call with
  | .ok result =>
      ({ content := [formatQueryResult args.table limit result], isError := false }, [call])
  | .error e =>
      ({ content := ["Error querying table \"" ++ args.table ++ "\": " ++ e], isError := true }, [call])

/-! ## Section 5: auxiliary definitions and concrete fixtures used by the
theorems below -/

/-- Two successive `ensureAuthenticated()` calls at one instant: the first
outcome and the second, run from the first outcome's state. -/
def ensureTwice (st : ClientState) (now : Int) (resp : AuthResponse) :
    (ClientState × Bool × Except String Unit) × (ClientState × Bool × Except String Unit) :=
  let r1 := ensureAuthenticated st now resp
  (r1, ensureAuthenticated r1.1 now resp)

/-- Number of network authentication calls performed by two successive
`ensureAuthenticated()` calls at one instant. -/
def authCallCount (st : ClientState) (now : Int) (resp : AuthResponse) : Nat :=
  (if (ensureTwice st now resp).1.2.1 then 1 else 0) +
  (if (ensureTwice st now resp).2.2.1 then 1 else 0)

/-- Fixture backend answering every get with a record echoing the sys_id and
every query with one row. -/
def bFix : Backend :=
  { getRecordResp := fun _ sysId => .ok { sys_id := sysId },
    queryResp := fun _ _ _ _ _ _ => .ok [{ sys_id := "r1", name := "row" }] }

/-- Fixture backend for process-definition resolution: the definition fetch
succeeds, every table query throws. -/
def bPdFix : Backend :=
  { getRecordResp := fun table sysId =>
      if table = "sys_pd_process_definition" then
        .ok { sys_id := sysId, status := "published", active := "true" }
      else .error "not found",
    queryResp := fun table _ _ _ _ _ => .error ("no such table " ++ table) }

/-- Fixture handler oracle returning a constant string. -/
def oracleConst : HandlerGroup → String → JsOutcome := fun _ _ => .retStr "ok"

/-- Fixture handler oracle that throws. -/
def oracleThrow : HandlerGroup → String → JsOutcome := fun _ _ => .throwErr "boom"

/-- Fixture transport whose query always throws a remote API error. -/
def qbackendFail : TransportCall → Except String (List JRecord) :=
  fun _ => .error "ServiceNow API error (500): boom"

/-- Fixture transport whose query returns no rows. -/
def qbackendEmpty : TransportCall → Except String (List JRecord) :=
  fun _ => .ok []

/-- Fixture oracle wiring the real `handleQueryTable` over the failing
transport into the router's table route. -/
def oracleTableFail : HandlerGroup → String → JsOutcome :=
  fun g _ =>
    match g with
    | .table => .retObj (handleQueryTable qbackendFail { table := "incident" }).1
    | _ => .retStr ""

/-! ## Section 6: helper lemmas -/

/-- Positivity of the JS numeric `||` default. -/
theorem jsOrNat_pos (v : Option Nat) (d : Nat) (hd : 0 < d) : 0 < jsOrNat v d := by
  cases v with
  | none => simpa [jsOrNat] using hd
  | some n =>
      by_cases h : n = 0
      · simpa [jsOrNat, h] using hd
      · simpa [jsOrNat, h] using Nat.pos_of_ne_zero h

/-- Boolean prefix test agrees with the prefix relation. -/
theorem prefixBool_iff {l₁ l₂ : List Char} : l₁.isPrefixOf l₂ = true ↔ l₁ <+: l₂ :=
  List.isPrefixOf_iff_prefix

/-- Two incomparable lists are never both prefixes of one list. -/
theorem prefixBool_excl (p q : List Char) (hpq : p.isPrefixOf q = false)
    (hqp : q.isPrefixOf p = false) :
    ∀ s, p.isPrefixOf s = true → q.isPrefixOf s = false := by
  intro s hp
  cases hq : q.isPrefixOf s with
  | false => rfl
  | true =>
      exfalso
      have h1 : p <+: s := prefixBool_iff.mp hp
      have h2 : q <+: s := prefixBool_iff.mp hq
      rcases List.prefix_or_prefix_of_prefix h1 h2 with h | h
      · rw [prefixBool_iff.mpr h] at hpq; cases hpq
      · rw [prefixBool_iff.mpr h] at hqp; cases hqp

/-- A list with prefix `p` differs from any list of which `p` is no prefix. -/
theorem ne_of_prefixBool (p s e : List Char) (hp : p.isPrefixOf s = true)
    (hpe : p.isPrefixOf e = false) : s ≠ e := by
  intro h
  subst h
  rw [hp] at hpe
  cases hpe

/-- `authenticate` preserves the session invariant at nonnegative instants. -/
theorem sessionInv_authenticate (st : ClientState) (now : Int) (resp : AuthResponse)
    (hst : sessionInv st) (hnow : 0 ≤ now) : sessionInv (authenticate st now resp).1 := by
  cases resp with
  | success data =>
      cases h : data.access_token with
      | none => simpa [authenticate, h] using hst
      | some tok =>
          by_cases ht : tok = ""
          · simpa [authenticate, h, ht] using hst
          · right
            refine ⟨tok, now + (jsOrNat data.expires_in 3600 : Int) * 1000, ?_, ht, ?_, ?_⟩
            · simp [authenticate, h, ht]
            · simp [authenticate, h, ht]
            · have hk : 0 < (jsOrNat data.expires_in 3600 : Int) := by
                exact_mod_cast jsOrNat_pos data.expires_in 3600 (by norm_num)
              omega
  | httpError s d t => simpa [authenticate] using hst
  | noResponse => simpa [authenticate] using hst
  | requestError m => simpa [authenticate] using hst

/-- `ensureAuthenticated` preserves the session invariant. -/
theorem sessionInv_ensureAuthenticated (st : ClientState) (now : Int) (resp : AuthResponse)
    (hst : sessionInv st) (hnow : 0 ≤ now) : sessionInv (ensureAuthenticated st now resp).1 := by
  unfold ensureAuthenticated
  by_cases h : needsAuth st now
  · simpa [h] using sessionInv_authenticate st now resp hst hnow
  · simpa [h] using hst

/-- Every reachable session state satisfies the invariant. -/
theorem reachable_sessionInv (st : ClientState) (h : Reachable st) : sessionInv st := by
  induction h with
  | init => exact Or.inl ⟨rfl, rfl⟩
  | step st op h hnow ih =>
      cases op with
      | auth n r => exact sessionInv_authenticate st n r ih (by simpa [ClientOp.now] using hnow)
      | makeRequestOp n r => exact sessionInv_ensureAuthenticated st n r ih (by simpa [ClientOp.now] using hnow)
      | getRecordOp n r => exact sessionInv_ensureAuthenticated st n r ih (by simpa [ClientOp.now] using hnow)
      | queryTableOp n r => exact sessionInv_ensureAuthenticated st n r ih (by simpa [ClientOp.now] using hnow)
      | createRecordOp n r => exact sessionInv_ensureAuthenticated st n r ih (by simpa [ClientOp.now] using hnow)
      | updateRecordOp n r => exact sessionInv_ensureAuthenticated st n r ih (by simpa [ClientOp.now] using hnow)
      | deleteRecordOp n r => exact sessionInv_ensureAuthenticated st n r ih (by simpa [ClientOp.now] using hnow)

/-- The state effect of `ensureAuthenticated` is either nothing or exactly an
`authenticate` call. -/
theorem ensureAuthenticated_state_cases (st : ClientState) (now : Int) (resp : AuthResponse) :
    (ensureAuthenticated st now resp).1 = st ∨
    (ensureAuthenticated st now resp).1 = (authenticate st now resp).1 := by
  unfold ensureAuthenticated
  by_cases h : needsAuth st now
  · right; simp [h]
  · left; simp [h]

/-! ## Section 7: claim theorems -/

/-- Claim C1: in every reachable session state, `ensureAuthenticated()`
invokes `authenticate()` exactly when no access token is held or the current
instant is past `tokenExpiry` minus the 5-minute early-refresh margin
(300000 ms); consequently two successive `ensureAuthenticated()` calls at
one nonnegative instant, against a token endpoint reporting a nonempty token
whose lifetime exceeds the margin, perform at most one network
authentication call, the second call being a no-op on the session state. -/
theorem c1_ensure_refresh_policy (st : ClientState) (hst : Reachable st) :
    (∀ (now : Int) (resp : AuthResponse),
       (ensureAuthenticated st now resp).2.1 = true ↔
         st.accessToken = none ∨ ∃ e, st.tokenExpiry = some e ∧ now > e - 300000) ∧
    (∀ (now : Int) (tok : String) (k : Nat), 0 ≤ now → tok ≠ "" → 300 < k →
       (ensureTwice st now (.success { access_token := some tok, expires_in := some k })).2.1 =
         (ensureTwice st now (.success { access_token := some tok, expires_in := some k })).1.1 ∧
       (ensureTwice st now (.success { access_token := some tok, expires_in := some k })).2.2.1 = false ∧
       authCallCount st now (.success { access_token := some tok, expires_in := some k }) ≤ 1) := by
  constructor
  · intro now resp
    rcases reachable_sessionInv st hst with ⟨hA, hE⟩ | ⟨tok, e, hA, ht, hE, he⟩
    · simp [ensureAuthenticated, needsAuth, hA, hE]
    · have he0 : e ≠ 0 := by omega
      by_cases hgt : now > e - 300000
      · simp [ensureAuthenticated, needsAuth, hA, hE, ht, he0, hgt]
      · simp [ensureAuthenticated, needsAuth, hA, hE, ht, he0, hgt]
  · intro now tok k hnow ht hk
    have hk0 : k ≠ 0 := by omega
    have hjs : jsOrNat (some k) 3600 = k := by simp [jsOrNat, hk0]
    have hauth :
        authenticate st now (.success { access_token := some tok, expires_in := some k }) =
          ({ accessToken := some tok, tokenExpiry := some (now + (k : Int) * 1000),
             authHeader := some ("Bearer " ++ tok) }, .ok true) := by
      simp [authenticate, ht, hjs]
    have hkk : (300 : Int) < (k : Int) := by exact_mod_cast hk
    have hsecond : needsAuth
        { accessToken := some tok, tokenExpiry := some (now + (k : Int) * 1000),
          authHeader := some ("Bearer " ++ tok) } now = false := by
      have h1 : now + (k : Int) * 1000 ≠ 0 := by omega
      have h2 : ¬ (now > now + (k : Int) * 1000 - 300000) := by omega
      simp [needsAuth, ht, h1, h2]
    by_cases h1 : needsAuth st now
    · refine ⟨?_, ?_, ?_⟩ <;>
        simp [ensureTwice, authCallCount, ensureAuthenticated, h1, hauth, hsecond]
    · refine ⟨?_, ?_, ?_⟩ <;>
        simp [ensureTwice, authCallCount, ensureAuthenticated, h1]

/-- Witness for C1: from the fresh state (no token held) a refresh fires, and
two successive calls with a one-hour token lifetime authenticate at most
once. -/
theorem c1_witness :
    (ensureAuthenticated initialState 0 AuthResponse.noResponse).2.1 = true ∧
    authCallCount initialState 0
        (.success { access_token := some "tok", expires_in := some 3600 }) ≤ 1 := by
  constructor
  · exact ((c1_ensure_refresh_policy initialState Reachable.init).1 0 AuthResponse.noResponse).mpr
      (Or.inl rfl)
  · exact ((c1_ensure_refresh_policy initialState Reachable.init).2 0 "tok" 3600
      (by decide) (by decide) (by decide)).2.2

/-- Counterexample to claim C7 as stated: on a 2xx response carrying a
nonempty token and `expires_in: 0`, the code sets the expiry to
now + 3600000 ms (the JS `||` default also fires on a present zero), not to
now + 0 as the claim's reading of "server-reported expiry seconds" demands. -/
theorem c7_counterexample :
    (authenticate initialState 1000
        (.success { access_token := some "tok", expires_in := some 0 })).1.tokenExpiry =
      some 3601000 ∧
    (authenticate initialState 1000
        (.success { access_token := some "tok", expires_in := some 0 })).1.tokenExpiry ≠
      some (1000 + 0 * 1000) := by
  constructor <;> decide

/-- Claim C7 (amended): for every 2xx response with a nonempty access token,
`authenticate()` stores the token, sets the expiry to now plus the reported
`expires_in` seconds — defaulting to 3600 when the field is absent or zero —
installs the bearer Authorization header, and returns success. -/
theorem c7_success_sets_token (st : ClientState) (now : Int) (tok : String) (ein : Option Nat)
    (htok : tok ≠ "") :
    authenticate st now (.success { access_token := some tok, expires_in := ein }) =
      ({ accessToken := some tok,
         tokenExpiry := some (now + (jsOrNat ein 3600 : Int) * 1000),
         authHeader := some ("Bearer " ++ tok) }, .ok true) := by
  simp [authenticate, htok]

/-- Witness for C7 (amended) at a concrete response with no `expires_in`. -/
theorem c7_witness :
    (authenticate initialState 0
        (.success { access_token := some "t", expires_in := none })).1 =
      { accessToken := some "t", tokenExpiry := some 3600000,
        authHeader := some "Bearer t" } := by
  have h := c7_success_sets_token initialState 0 "t" none (by decide)
  rw [h]
  decide

/-- Claim C8: in every reachable session state the access token and the
token expiry are both present or both absent, and every client operation
either leaves the session state unchanged or changes it exactly as an
`authenticate()` call does — no operation other than `authenticate` mutates
the token fields. -/
theorem c8_session_invariant (st : ClientState) (hst : Reachable st) :
    (st.accessToken = none ↔ st.tokenExpiry = none) ∧
    ∀ op : ClientOp, applyOp st op = st ∨ applyOp st op = (authenticate st op.now op.resp).1 := by
  constructor
  · rcases reachable_sessionInv st hst with ⟨hA, hE⟩ | ⟨tok, e, hA, _, hE, _⟩ <;> simp [hA, hE]
  · intro op
    cases op with
    | auth n r => exact Or.inr rfl
    | makeRequestOp n r => exact ensureAuthenticated_state_cases st n r
    | getRecordOp n r => exact ensureAuthenticated_state_cases st n r
    | queryTableOp n r => exact ensureAuthenticated_state_cases st n r
    | createRecordOp n r => exact ensureAuthenticated_state_cases st n r
    | updateRecordOp n r => exact ensureAuthenticated_state_cases st n r
    | deleteRecordOp n r => exact ensureAuthenticated_state_cases st n r

/-- Witness for C8 at the constructed state. -/
theorem c8_witness : initialState.accessToken = none ↔ initialState.tokenExpiry = none :=
  (c8_session_invariant initialState Reachable.init).1

/-- Claim C10: every failing `authenticate()` call (non-2xx response, no
response, local request failure, or a 2xx response lacking a nonempty access
token) throws and leaves the whole session state — token, expiry, and the
default Authorization header — exactly as it was. -/
theorem c10_failed_auth_preserves_state (st : ClientState) (now : Int) (resp : AuthResponse)
    (h : authRespFails resp) :
    (authenticate st now resp).1 = st ∧ ∃ msg, (authenticate st now resp).2 = .error msg := by
  cases resp with
  | success data => rcases h with h | h <;> simp [authenticate, h]
  | httpError s d t => simp [authenticate]
  | noResponse => simp [authenticate]
  | requestError m => simp [authenticate]

/-- Witness for C10 at a concrete no-response failure. -/
theorem c10_witness :
    (authenticate initialState 0 AuthResponse.noResponse).1 = initialState :=
  (c10_failed_auth_preserves_state initialState 0 AuthResponse.noResponse trivial).1

/-- The source's sys_id check (redundant length test and regex) equals the
regex test alone. -/
theorem looksLikeSysId_eq_regex (s : String) : looksLikeSysId s = regexHex32CI s := by
  unfold looksLikeSysId regexHex32CI
  cases h : (s.length == 32) <;> simp [h]

/-- Claim C2: identifiers matching `^[a-f0-9]{32}$` case-insensitively are
resolved by a single direct get-by-id call with `lookup_method` `sys_id`, in
both the incident and the user resolver; every other (nonempty) identifier
is resolved by a single query — exact `number` equality for incidents,
username-or-email equality for users — erroring when no record matches and
otherwise returning the secondary `lookup_method`. -/
theorem c2_identifier_disambiguation (b : Backend) (identifier : String) :
    (regexHex32CI identifier = true →
      (getIncidentByIdentifier b identifier).2 = [SNCall.getRec "incident" identifier] ∧
      (∀ r, b.getRecordResp "incident" identifier = .ok r →
        (getIncidentByIdentifier b identifier).1 =
          .ok { rtype := "incident", identifier := identifier,
                lookup_method := "sys_id", record := r }) ∧
      (getUserByIdentifier b identifier).2 = [SNCall.getRec "sys_user" identifier] ∧
      (∀ r, b.getRecordResp "sys_user" identifier = .ok r →
        (getUserByIdentifier b identifier).1 =
          .ok { rtype := "user", identifier := identifier,
                lookup_method := "sys_id", record := r })) ∧
    (regexHex32CI identifier = false → identifier ≠ "" →
      (getIncidentByIdentifier b identifier).2 =
        [SNCall.query "incident" ("number=" ++ identifier) "" 1 0 none] ∧
      (b.queryResp "incident" ("number=" ++ identifier) "" 1 0 none = .ok [] →
        ∃ msg, (getIncidentByIdentifier b identifier).1 = .error msg) ∧
      (∀ r rs, b.queryResp "incident" ("number=" ++ identifier) "" 1 0 none = .ok (r :: rs) →
        (getIncidentByIdentifier b identifier).1 =
          .ok { rtype := "incident", identifier := identifier,
                lookup_method := "number", record := r }) ∧
      (getUserByIdentifier b identifier).2 =
        [SNCall.query "sys_user" ("user_name=" ++ identifier ++ "^ORemail=" ++ identifier) "" 1 0 none] ∧
      (b.queryResp "sys_user" ("user_name=" ++ identifier ++ "^ORemail=" ++ identifier) "" 1 0 none = .ok [] →
        ∃ msg, (getUserByIdentifier b identifier).1 = .error msg) ∧
      (∀ r rs, b.queryResp "sys_user" ("user_name=" ++ identifier ++ "^ORemail=" ++ identifier) "" 1 0 none = .ok (r :: rs) →
        (getUserByIdentifier b identifier).1 =
          .ok { rtype := "user", identifier := identifier,
                lookup_method := "username_or_email", record := r })) := by
  constructor
  · intro hhex
    have hls : looksLikeSysId identifier = true := by
      rw [looksLikeSysId_eq_regex]; exact hhex
    refine ⟨?_, ?_, ?_, ?_⟩
    · cases hr : b.getRecordResp "incident" identifier <;>
        simp [getIncidentByIdentifier, hls, hr]
    · intro r hr; simp [getIncidentByIdentifier, hls, hr]
    · cases hr : b.getRecordResp "sys_user" identifier <;>
        simp [getUserByIdentifier, hls, hr]
    · intro r hr; simp [getUserByIdentifier, hls, hr]
  · intro hhex hne
    have hls : looksLikeSysId identifier = false := by
      rw [looksLikeSysId_eq_regex]; exact hhex
    refine ⟨?_, ?_, ?_, ?_, ?_, ?_⟩
    · cases hq : b.queryResp "incident" ("number=" ++ identifier) "" 1 0 none with
      | ok l => cases l <;> simp [getIncidentByIdentifier, hls, hq]
      | error e => simp [getIncidentByIdentifier, hls, hq]
    · intro hq; simp [getIncidentByIdentifier, hls, hq]
    · intro r rs hq; simp [getIncidentByIdentifier, hls, hq]
    · cases hq : b.queryResp "sys_user" ("user_name=" ++ identifier ++ "^ORemail=" ++ identifier) "" 1 0 none with
      | ok l => cases l <;> simp [getUserByIdentifier, hls, hq]
      | error e => simp [getUserByIdentifier, hls, hq]
    · intro hq; simp [getUserByIdentifier, hls, hq]
    · intro r rs hq; simp [getUserByIdentifier, hls, hq]

/-- Witness for C2: a 32-hex identifier resolves by direct get, a
human-readable number by a query. -/
theorem c2_witness :
    (getIncidentByIdentifier bFix "aabbccddeeff00112233445566778899").2 =
      [SNCall.getRec "incident" "aabbccddeeff00112233445566778899"] ∧
    (getUserByIdentifier bFix "john.doe").2 =
      [SNCall.query "sys_user" "user_name=john.doe^ORemail=john.doe" "" 1 0 none] := by
  constructor
  · exact ((c2_identifier_disambiguation bFix "aabbccddeeff00112233445566778899").1
      (by decide)).1
  · exact ((c2_identifier_disambiguation bFix "john.doe").2
      (by decide) (by decide)).2.2.2.1

/-- Claim C6: when the process-definition fetch succeeds but the lane lookup
throws for both candidate table names, the resolver still succeeds with
empty `lanes` and `activities`, `summary.total_lanes = 0`, and the lane
failure logged rather than raised. -/
theorem c6_pd_lane_failures_swallowed (b : Backend) (sysId : String) (pd : SNRecord)
    (e1 e2 : String)
    (hpd : b.getRecordResp "sys_pd_process_definition" sysId = .ok pd)
    (h1 : b.queryResp "sys_pd_lane_definition"
        ("process_definition=" ++ sysId ++ "^active=true") "" 100 0 (some "order") = .error e1)
    (h2 : b.queryResp "sys_pd_lane"
        ("process_definition=" ++ sysId ++ "^active=true") "" 100 0 (some "order") = .error e2) :
    ∃ r, (getProcessDefinitionWithDetails b sysId).1 = .ok r ∧
      r.lanes = [] ∧ r.activities = [] ∧ r.summary.total_lanes = 0 ∧
      (getProcessDefinitionWithDetails b sysId).2.2 = ["Could not fetch lanes: " ++ e2] := by
  have hl : fetchLanes b sysId =
      ([],
       [SNCall.query "sys_pd_lane_definition"
          ("process_definition=" ++ sysId ++ "^active=true") "" 100 0 (some "order"),
        SNCall.query "sys_pd_lane"
          ("process_definition=" ++ sysId ++ "^active=true") "" 100 0 (some "order")],
       ["Could not fetch lanes: " ++ e2]) := by
    simp [fetchLanes, h1, h2]
  refine ⟨{ rtype := "process_definition", sys_id := sysId, process_definition := pd,
            lanes := [], activities := [],
            summary := { total_lanes := 0, total_activities := 0,
                         status := pd.status, active := pd.active == "true" } },
          ?_, rfl, rfl, rfl, ?_⟩ <;>
    simp [getProcessDefinitionWithDetails, hpd, hl]

/-- Witness for C6 at a concrete backend whose lane queries all throw. -/
theorem c6_witness :
    ∃ r, (getProcessDefinitionWithDetails bPdFix "abc").1 = .ok r ∧
      r.lanes = [] ∧ r.activities = [] ∧ r.summary.total_lanes = 0 ∧
      (getProcessDefinitionWithDetails bPdFix "abc").2.2 =
        ["Could not fetch lanes: " ++ "no such table sys_pd_lane"] := by
  exact c6_pd_lane_failures_swallowed bPdFix "abc"
    { sys_id := "abc", status := "published", active := "true" }
    "no such table sys_pd_lane_definition" "no such table sys_pd_lane"
    (by rfl) (by rfl) (by rfl)


/-- An infix of a list is an infix of any extension on the left. -/
theorem extendInfixLeft (t tail pre : List Char) (h : t <:+: tail) :
    t <:+: pre ++ tail := by
  obtain ⟨s, e, hEq⟩ := h
  exact ⟨pre ++ s, e, by rw [← hEq]; simp⟩

/-- On a URI carrying the record prefix, the dispatch reduces to the record
branch: the earlier branches cannot match. -/
theorem readResource_record_branch (uri : List Char) (hrec : recPfx.isPrefixOf uri = true) :
    readResource uri =
      (match splitOnChar '/' (uri.drop recPfx.length) with
       | [t, s] => if t ≠ [] ∧ s ≠ [] then ReadOutcome.record t s
                   else ReadOutcome.invalid recFormatMsg
       | _ => ReadOutcome.invalid recFormatMsg) := by
  have hex : uri ≠ exUri := ne_of_prefixBool recPfx uri exUri hrec (by decide)
  have hs : schemaPfx.isPrefixOf uri = false :=
    prefixBool_excl recPfx schemaPfx (by decide) (by decide) uri hrec
  have hd : dataPfx.isPrefixOf uri = false :=
    prefixBool_excl recPfx dataPfx (by decide) (by decide) uri hrec
  have hs' : ¬ (schemaPfx.isPrefixOf uri = true) := by simp [hs]
  have hd' : ¬ (dataPfx.isPrefixOf uri = true) := by simp [hd]
  unfold readResource
  rw [if_neg hex, if_neg hs', if_neg hd', if_pos hrec]

set_option maxRecDepth 40000 in
/-- Counterexample to claim C3 as stated: the URI `servicenow://incident/`
misses its required trailing parameter and is indeed rejected with
`InvalidRequest`, but with the incident branch's specific format message,
which does not enumerate the six templates; moreover `servicenow://examples`
matches none of the six prefixes yet is accepted, not rejected. -/
theorem c3_counterexample :
    readResource "servicenow://incident/".data = .invalid incReqMsg ∧
    ¬ enumeratesSixTemplates incReqMsg ∧
    readResource "servicenow://examples".data = .examples := by
  refine ⟨by decide, ?_, by decide⟩
  intro h
  have ht := h ("servicenow://table-schema/\x7btable\x7d".data) (by simp [sixTemplates])
  exact absurd ht (by decide)

set_option maxRecDepth 40000 in
/-- Claim C3 (amended): a URI under the record prefix is accepted exactly
when exactly two path segments follow the prefix and both are nonempty, and
is otherwise rejected with `InvalidRequest` carrying the record format
message (never silently truncated); every URI other than the literal
`servicenow://examples` matching none of the six prefixes is rejected with
an `InvalidRequest` whose message enumerates all six supported templates;
and a URI matching one of the six prefixes with an empty trailing parameter
is rejected with `InvalidRequest` carrying that branch's specific format
message. -/
theorem c3_uri_validation :
    (∀ uri : List Char, recPfx.isPrefixOf uri = true →
      ((∀ t s, splitOnChar '/' (uri.drop recPfx.length) = [t, s] → t ≠ [] → s ≠ [] →
          readResource uri = .record t s) ∧
       (∀ t s, readResource uri = .record t s →
          splitOnChar '/' (uri.drop recPfx.length) = [t, s] ∧ t ≠ [] ∧ s ≠ []) ∧
       ((¬ ∃ t s, splitOnChar '/' (uri.drop recPfx.length) = [t, s] ∧ t ≠ [] ∧ s ≠ []) →
          readResource uri = .invalid recFormatMsg))) ∧
    (∀ uri : List Char, uri ≠ exUri →
      schemaPfx.isPrefixOf uri = false → dataPfx.isPrefixOf uri = false →
      recPfx.isPrefixOf uri = false → incPfx.isPrefixOf uri = false →
      userPfx.isPrefixOf uri = false → pdPfx.isPrefixOf uri = false →
      readResource uri = .invalid (unknownMsg uri) ∧ enumeratesSixTemplates (unknownMsg uri)) ∧
    (readResource ("servicenow://table-schema/".data) = .invalid schemaReqMsg ∧
     readResource ("servicenow://table-data/".data) = .invalid dataReqMsg ∧
     readResource ("servicenow://incident/".data) = .invalid incReqMsg ∧
     readResource ("servicenow://user/".data) = .invalid userReqMsg ∧
     readResource ("servicenow://process-definition/".data) = .invalid pdReqMsg) := by
  refine ⟨?_, ?_, by decide, by decide, by decide, by decide, by decide⟩
  · intro uri hrec
    refine ⟨?_, ?_, ?_⟩
    · intro t s hsplit ht hs'
      rw [readResource_record_branch uri hrec, hsplit]
      simp [ht, hs']
    · intro t s hout
      rw [readResource_record_branch uri hrec] at hout
      split at hout
      · rename_i t' s' heq
        split at hout
        · rename_i hcond
          injection hout with h1 h2
          subst h1
          subst h2
          exact ⟨heq, hcond.1, hcond.2⟩
        · exact ReadOutcome.noConfusion hout
      · exact ReadOutcome.noConfusion hout
    · intro hnone
      rw [readResource_record_branch uri hrec]
      split
      · rename_i t s heq
        exact if_neg (fun hcond => hnone ⟨t, s, heq, hcond.1, hcond.2⟩)
      · rfl
  · intro uri hex h1 h2 h3 h4 h5 h6
    constructor
    · simp [readResource, hex, h1, h2, h3, h4, h5, h6]
    · intro t htmem
      have step : t <:+: unknownTail → t <:+: unknownMsg uri := by
        intro h
        exact extendInfixLeft t (uri ++ unknownTail) "Unknown resource: ".data
          (extendInfixLeft t unknownTail uri h)
      simp only [sixTemplates, List.mem_cons, List.not_mem_nil, or_false] at htmem
      rcases htmem with rfl | rfl | rfl | rfl | rfl | rfl
      · exact step (by decide)
      · exact step (by decide)
      · exact step (by decide)
      · exact step (by decide)
      · exact step (by decide)
      · exact step (by decide)

set_option maxRecDepth 40000 in
/-- Witness for C3 (amended): a well-formed record URI is accepted with both
segments extracted, and an unknown URI is rejected with the enumerating
message. -/
theorem c3_witness :
    readResource "servicenow://record/incident/abc123".data =
      .record "incident".data "abc123".data ∧
    readResource "servicenow://bogus".data = .invalid (unknownMsg "servicenow://bogus".data) := by
  constructor
  · exact (c3_uri_validation.1 "servicenow://record/incident/abc123".data (by decide)).1
      "incident".data "abc123".data (by decide) (by decide) (by decide)
  · exact (c3_uri_validation.2.1 "servicenow://bogus".data (by decide) (by decide) (by decide)
      (by decide) (by decide) (by decide) (by decide)).1

set_option maxRecDepth 40000 in
/-- Counterexample to claim C4 as stated: `servicenow_record_count` contains
`_record` without ending in it, so under the claim's predicates (table route
only for names containing `query_table` or ENDING in `_record`, and no other
predicate matching) it should raise `MethodNotFound` without invoking a
handler; the code routes it to the table handlers and invokes them. -/
theorem c4_counterexample :
    toolRoute "servicenow_record_count" = some HandlerGroup.table ∧
    claimTablePred "servicenow_record_count" = false ∧
    jsIncludes "servicenow_record_count" "_incident" = false ∧
    jsIncludes "servicenow_record_count" "script_include" = false ∧
    jsIncludes "servicenow_record_count" "process_definition" = false ∧
    jsIncludes "servicenow_record_count" "process_lane" = false ∧
    jsIncludes "servicenow_record_count" "process_activity" = false ∧
    jsIncludes "servicenow_record_count" "activity_definition" = false ∧
    jsIncludes "servicenow_record_count" "_attachment" = false ∧
    (callTool oracleConst "servicenow_record_count").2 = [HandlerGroup.table] := by
  decide

set_option maxRecDepth 40000 in
/-- Claim C4 (amended): the router selects the first matching predicate in
source order — a name containing `_incident` to incident handlers,
containing `script_include` to script-include handlers, containing
`query_table` or CONTAINING `_record` to generic table handlers, then the
process-definition / process-lane / process-activity / attachment
predicates — and a name matching no predicate raises `MethodNotFound`
without invoking any handler. -/
theorem c4_router_first_match (n : String) :
    toolRoute n = routeSpecContains n ∧
    ∀ oracle : HandlerGroup → String → JsOutcome, toolRoute n = none →
      callTool oracle n =
        (.error { code := .methodNotFound, message := "Unknown tool: " ++ n }, []) := by
  constructor
  · cases h1 : jsIncludes n "_incident" <;>
    cases h2 : jsIncludes n "script_include" <;>
    cases h3 : jsIncludes n "query_table" <;>
    cases h4 : jsIncludes n "_record" <;>
    cases h5 : jsIncludes n "process_definition" <;>
    cases h6 : jsIncludes n "process_lane" <;>
    cases h7 : jsIncludes n "process_activity" <;>
    cases h8 : jsIncludes n "activity_definition" <;>
    cases h9 : jsIncludes n "_attachment" <;>
    simp [toolRoute, toolRouter, routeSpecContains, List.find?, h1, h2, h3, h4, h5, h6, h7, h8, h9]
  · intro oracle hnone
    simp [callTool, hnone]

set_option maxRecDepth 40000 in
/-- Witness for C4 (amended): the unknown tool name is rejected with
`MethodNotFound` and no handler group is invoked. -/
theorem c4_witness :
    callTool oracleConst "servicenow_unknown_tool" =
      (.error { code := .methodNotFound, message := "Unknown tool: " ++ "servicenow_unknown_tool" },
       []) :=
  (c4_router_first_match "servicenow_unknown_tool").2 oracleConst (by decide)

/-- Counterexample to claim C5 as stated: the generic table handler catches
its business failure internally and returns an `isError` result object, so
this failure reaches the protocol caller through the router's SUCCESS path
(wrapped as serialized content), not through the claimed single
`InternalError` normalization point. -/
theorem c5_counterexample :
    (handleQueryTable qbackendFail { table := "incident" }).1.isError = true ∧
    (handleQueryTable qbackendFail { table := "incident" }).1.content =
      ["Error querying table \"incident\": ServiceNow API error (500): boom"] ∧
    callTool oracleTableFail "servicenow_query_table" =
      (.ok { content := [.json (handleQueryTable qbackendFail { table := "incident" }).1] },
       [HandlerGroup.table]) := by
  refine ⟨rfl, rfl, ?_⟩
  have hroute : toolRoute "servicenow_query_table" = some HandlerGroup.table := by decide
  simp [callTool, hroute, oracleTableFail]

/-- Claim C5 (amended): every routed tool call whose handler raises is caught
at the router boundary and re-raised as an `InternalError` wrapping the
original message and tagged with the tool name (though handlers may instead
catch business failures internally and return `isError` results that bypass
this normalization). -/
theorem c5_router_error_wrapping (oracle : HandlerGroup → String → JsOutcome) (n : String)
    (g : HandlerGroup) (m : String) (hroute : toolRoute n = some g)
    (hthrow : oracle g n = .throwErr m) :
    callTool oracle n =
      (.error { code := .internalError,
                message := "Tool execution failed: " ++ n ++ ": " ++ m }, [g]) := by
  simp [callTool, hroute, hthrow]

/-- Witness for C5 (amended) at a throwing handler on a routed name. -/
theorem c5_witness :
    callTool oracleThrow "servicenow_query_table" =
      (.error { code := .internalError,
                message := "Tool execution failed: " ++ "servicenow_query_table" ++ ": " ++ "boom" },
       [HandlerGroup.table]) :=
  c5_router_error_wrapping oracleThrow "servicenow_query_table" HandlerGroup.table "boom"
    (by decide) rfl

/-- Claim C9 (code evaluated at the failing input): a `servicenow_query_table`
call with `limit: 0` is not rejected anywhere — the handler forwards
`sysparm_limit = 0` straight to the transport layer and returns an ordinary
success result — even though the tool's own input schema declares
`minimum: 1` for `limit`. -/
theorem c9_limit_zero_passthrough :
    (handleQueryTable qbackendEmpty { table := "incident", limit := some 0 }).2 =
      [{ method := "GET", path := "/api/now/table/incident",
         params := { sysparm_limit := 0, sysparm_offset := 0 } }] ∧
    (handleQueryTable qbackendEmpty { table := "incident", limit := some 0 }).1.isError = false ∧
    queryTableLimitMinimum = some 1 := by
  refine ⟨rfl, rfl, rfl⟩
